import Mathlib

/-!
Shallow embedding of the arcboard treasury repository for specification
verification.

The development models:
* `src/models/compliance_record.ts` — the TypeScript `ComplianceRecord`
  interface, `ComplianceRecordValidator`, and `ComplianceRecordUtils`;
* `src/models/ComplianceRecord.mongoose.js` — the Mongoose schema defaults
  and instance methods (`markReconciled`, `updateComplianceStatus`);
* the off-chain automation service (`PayrollAutomationService`):
  `executeScheduledDistribution` and `checkScheduledDistributions`;
* the on-chain Treasury contract's multisignature state machine and
  allocation rule engine.  The Solidity sources are not part of the
  repository snapshot (only the README, docs and the minimal ABI are),
  so those two components are modelled from the specification text.

Conventions: JavaScript numbers that are always integral in the code are
modelled as `Nat` (or `Int` where the code checks for negativity);
`undefined` is `Option.none`; a JavaScript `Date` stored by Mongoose is
modelled as its epoch-millisecond value; the wall clock is passed
explicitly (in milliseconds, as `Date.now()` returns).  JavaScript
truthiness of a `string | undefined` value is "`some s` with `s`
non-empty".  Floating-point rounding of `usdcAmountFormatted` is not
modelled (the value is kept as an exact rational); no claim depends on it.
-/

namespace Arcboard

/-- Transaction source enum from `compliance_record.ts` (and the matching
object in `ComplianceRecord.mongoose.js`). -/
inductive TransactionSource where
  | MULTISIG_TRANSACTION
  | SCHEDULED_DISTRIBUTION
  | ALLOCATION_RULE
  | DISTRIBUTION_RULE
deriving DecidableEq, Repr

/-- KYC/AML compliance status enum from `compliance_record.ts`. -/
inductive ComplianceStatus where
  | PENDING
  | VERIFIED
  | REJECTED
  | EXEMPT
  | UNKNOWN
deriving DecidableEq, Repr

/-- `Metadata` interface: all fields optional. -/
structure Metadata where
  jurisdiction : Option String := none
  regulatoryCategory : Option String := none
  reportingPeriod : Option String := none
  notes : Option String := none
deriving DecidableEq, Repr

/-- Left-pad a natural number to two decimal digits. -/
def pad2 (n : Nat) : String :=
  if n < 10 then "0" ++ toString n else toString n

/-- Left-pad a natural number to four decimal digits. -/
def pad4 (n : Nat) : String :=
  if n < 10 then "000" ++ toString n
  else if n < 100 then "00" ++ toString n
  else if n < 1000 then "0" ++ toString n
  else toString n

/-- Convert a count of days since 1970-01-01 to a civil (year, month, day)
triple.  Standard civil-from-days algorithm, specialised to non-negative
day counts. -/
def civilFromDays (days : Nat) : Nat × Nat × Nat :=
  let z := days + 719468
  let era := z / 146097
  let doe := z % 146097
  let yoe := (doe - doe / 1460 + doe / 36524 - doe / 146096) / 365
  let y := yoe + era * 400
  let doy := doe - (365 * yoe + yoe / 4 - yoe / 100)
  let mp := (5 * doy + 2) / 153
  let d := doy - (153 * mp + 2) / 5 + 1
  let m := if mp < 10 then mp + 3 else mp - 9
  (if m ≤ 2 then y + 1 else y, m, d)

/-- `ComplianceRecordUtils.timestampToISO`: render a Unix timestamp in
seconds the way `new Date(timestamp * 1000).toISOString()` does.  The
milliseconds part is always `000` because the input has seconds
granularity. -/
def timestampToISO (sec : Nat) : String :=
  let days := sec / 86400
  let rem := sec % 86400
  let c := civilFromDays days
  pad4 c.1 ++ "-" ++ pad2 c.2.1 ++ "-" ++ pad2 c.2.2 ++ "T" ++
    pad2 (rem / 3600) ++ ":" ++ pad2 (rem % 3600 / 60) ++ ":" ++
    pad2 (rem % 60) ++ ".000Z"

/-- Parse the leading decimal digits of a string, as `parseInt(s, 10)`
does on the digit-only strings this code base feeds it; `none` models
`NaN` (no leading digits). -/
def parseIntDec (s : String) : Option Nat :=
  let ds := s.data.takeWhile Char.isDigit
  if ds.isEmpty then none
  else some (ds.foldl (fun acc c => acc * 10 + (c.toNat - 48)) 0)

/-- `ComplianceRecordUtils.formatUSDCAmount`: `parseInt(amount, 10) / 1e6`.
The quotient is kept exact as a rational. -/
def formatUSDCAmount (amount : String) : Option Rat :=
  (parseIntDec amount).map (fun n => (n : Rat) / 1000000)

/-- The TypeScript `ComplianceRecord` interface. -/
structure ComplianceRecord where
  recordId : String
  transactionHash : String
  internalTxHash : String
  ruleId : Nat
  source : TransactionSource
  recipient : String
  usdcAmount : String
  usdcAmountFormatted : Option Rat
  kycStatus : ComplianceStatus
  amlStatus : ComplianceStatus
  timestamp : Nat
  timestampISO : String
  blockNumber : Nat
  executor : String
  circleGatewayTxId : Option String := none
  arcTransparencyId : Option String := none
  reconciled : Bool
  reconciledAt : Nat
  reconciledAtISO : Option String := none
  metadata : Option Metadata := none
  createdAt : Option String := none
  updatedAt : Option String := none
deriving DecidableEq, Repr

/-- JavaScript `a || b` restricted to `string | undefined` operands: the
left value wins exactly when it is a non-empty (truthy) string. -/
def jsOrString (a b : Option String) : Option String :=
  match a with
  | some s => if s = "" then b else some s
  | none => b

namespace ComplianceRecordUtils

/-- `ComplianceRecordUtils.markReconciled`.  The wall clock is passed as
`nowMs` (what `Date.now()` returns); the code floors it to seconds. -/
def markReconciled (nowMs : Nat) (record : ComplianceRecord) : ComplianceRecord :=
  let now := nowMs / 1000
  { record with
      reconciled := true
      reconciledAt := now
      reconciledAtISO := some (timestampToISO now) }

/-- `ComplianceRecordUtils.updateComplianceStatus`.  The two external ids
are optional parameters; `x || record.x` keeps the stored value unless a
truthy (non-empty) string is supplied. -/
def updateComplianceStatus (record : ComplianceRecord)
    (kycStatus amlStatus : ComplianceStatus)
    (circleGatewayTxId arcTransparencyId : Option String := none) :
    ComplianceRecord :=
  { record with
      kycStatus := kycStatus
      amlStatus := amlStatus
      circleGatewayTxId := jsOrString circleGatewayTxId record.circleGatewayTxId
      arcTransparencyId := jsOrString arcTransparencyId record.arcTransparencyId }

/-- `ComplianceRecordUtils.fromEvent`: build a fresh record from event
data.  Fields absent from the object literal are `undefined`. -/
def fromEvent (recordId transactionHash recipient : String) (ruleId : Nat)
    (source : TransactionSource) (amount executor : String)
    (blockNumber timestamp : Nat) : ComplianceRecord :=
  { recordId := recordId
    transactionHash := transactionHash
    internalTxHash := recordId
    ruleId := ruleId
    source := source
    recipient := recipient
    usdcAmount := amount
    usdcAmountFormatted := formatUSDCAmount amount
    kycStatus := ComplianceStatus.UNKNOWN
    amlStatus := ComplianceStatus.UNKNOWN
    timestamp := timestamp
    timestampISO := timestampToISO timestamp
    blockNumber := blockNumber
    executor := executor
    reconciled := false
    reconciledAt := 0 }

end ComplianceRecordUtils

/-- A Mongoose document of the `ComplianceRecordSchema`.  `Date`-typed
fields (`timestampISO`, `reconciledAtISO`) are modelled by their epoch
millisecond value. -/
structure MongooseComplianceRecord where
  recordId : String
  transactionHash : String
  internalTxHash : String
  ruleId : Nat
  source : TransactionSource
  recipient : String
  usdcAmount : String
  usdcAmountFormatted : Option Rat
  kycStatus : ComplianceStatus
  amlStatus : ComplianceStatus
  timestamp : Nat
  timestampISO : Nat
  blockNumber : Nat
  executor : String
  circleGatewayTxId : Option String := none
  arcTransparencyId : Option String := none
  reconciled : Bool
  reconciledAt : Nat
  reconciledAtISO : Option Nat := none
  metadata : Metadata := {}
deriving DecidableEq, Repr

namespace MongooseComplianceRecord

/-- Creating a document while supplying only the required (no-default)
fields: the schema defaults fill `kycStatus`, `amlStatus`, `reconciled`,
`reconciledAt`, and `metadata`.  (`ruleId` also has a default of 0, but
every creation site supplies it, so it stays a parameter.) -/
def create (recordId transactionHash internalTxHash : String) (ruleId : Nat)
    (source : TransactionSource) (recipient usdcAmount : String)
    (usdcAmountFormatted : Option Rat) (timestamp timestampISO blockNumber : Nat)
    (executor : String) : MongooseComplianceRecord :=
  { recordId := recordId
    transactionHash := transactionHash
    internalTxHash := internalTxHash
    ruleId := ruleId
    source := source
    recipient := recipient
    usdcAmount := usdcAmount
    usdcAmountFormatted := usdcAmountFormatted
    kycStatus := ComplianceStatus.UNKNOWN
    amlStatus := ComplianceStatus.UNKNOWN
    timestamp := timestamp
    timestampISO := timestampISO
    blockNumber := blockNumber
    executor := executor
    reconciled := false
    reconciledAt := 0
    metadata := {} }

/-- `ComplianceRecordSchema.methods.markReconciled`: sets `reconciled`,
floors `Date.now()` to seconds for `reconciledAt`, and stores `new Date()`
— the full-precision current instant — in `reconciledAtISO`.  (The
`save()` round trip is persistence and is not modelled.) -/
def markReconciled (nowMs : Nat) (r : MongooseComplianceRecord) :
    MongooseComplianceRecord :=
  { r with
      reconciled := true
      reconciledAt := nowMs / 1000
      reconciledAtISO := some nowMs }

/-- `ComplianceRecordSchema.methods.updateComplianceStatus`: always
assigns both statuses; assigns an external id only when the argument is
truthy. -/
def updateComplianceStatus (r : MongooseComplianceRecord)
    (kycStatus amlStatus : ComplianceStatus)
    (circleGatewayTxId arcTransparencyId : Option String := none) :
    MongooseComplianceRecord :=
  { r with
      kycStatus := kycStatus
      amlStatus := amlStatus
      circleGatewayTxId := jsOrString circleGatewayTxId r.circleGatewayTxId
      arcTransparencyId := jsOrString arcTransparencyId r.arcTransparencyId }

end MongooseComplianceRecord

/-- Hexadecimal digit test, matching the `[0-9a-fA-F]` character class. -/
def isHexDigit (c : Char) : Bool :=
  c.isDigit || (('a' ≤ c) && (c ≤ 'f')) || (('A' ≤ c) && (c ≤ 'F'))

namespace ComplianceRecordValidator

/-- `ADDRESS_REGEX = /^0x[0-9a-fA-F]{40}$/`. -/
def validateAddress (address : String) : Bool :=
  match address.data with
  | c0 :: c1 :: rest =>
    (c0 == '0') && (c1 == 'x') && rest.length == 40 && rest.all isHexDigit
  | _ => false

/-- `HASH_REGEX = /^0x[0-9a-fA-F]{64}$/`. -/
def validateHash (hash : String) : Bool :=
  match hash.data with
  | c0 :: c1 :: rest =>
    (c0 == '0') && (c1 == 'x') && rest.length == 64 && rest.all isHexDigit
  | _ => false

/-- `AMOUNT_REGEX = /^[0-9]+$/`. -/
def validateAmount (amount : String) : Bool :=
  !amount.data.isEmpty && amount.data.all Char.isDigit

/-- `JURISDICTION_REGEX = /^[A-Z]{2}$/`. -/
def validateJurisdiction (jurisdiction : String) : Bool :=
  jurisdiction.data.length == 2 &&
    jurisdiction.data.all (fun c => ('A' ≤ c) && (c ≤ 'Z'))

end ComplianceRecordValidator

/-- A `Partial<ComplianceRecord>` value: every field optional, as fed to
`ComplianceRecordValidator.validate`. -/
structure RecordDraft where
  recordId : Option String := none
  transactionHash : Option String := none
  internalTxHash : Option String := none
  ruleId : Option Int := none
  source : Option TransactionSource := none
  recipient : Option String := none
  usdcAmount : Option String := none
  usdcAmountFormatted : Option Rat := none
  kycStatus : Option ComplianceStatus := none
  amlStatus : Option ComplianceStatus := none
  timestamp : Option Int := none
  timestampISO : Option String := none
  blockNumber : Option Int := none
  executor : Option String := none
  circleGatewayTxId : Option String := none
  arcTransparencyId : Option String := none
  reconciled : Option Bool := none
  reconciledAt : Option Int := none
  reconciledAtISO : Option String := none
  metadata : Option Metadata := none
  createdAt : Option String := none
  updatedAt : Option String := none
deriving DecidableEq, Repr

namespace ComplianceRecordValidator

/-- The guard `record.field && !check(record.field)` of `validate`: the
field is truthy (present and non-empty) and fails its format check. -/
def truthyAndInvalid (field : Option String) (check : String → Bool) : Bool :=
  match field with
  | some s => !(s == "") && !(check s)
  | none => false

/-- The guard `record.field !== undefined && record.field < 0`. -/
def presentAndNegative (field : Option Int) : Bool :=
  match field with
  | some n => n < 0
  | none => false

/-- The guard `record.metadata?.jurisdiction && !validateJurisdiction(...)`
with optional chaining. -/
def jurisdictionInvalid (metadata : Option Metadata) : Bool :=
  match metadata with
  | some m => truthyAndInvalid m.jurisdiction validateJurisdiction
  | none => false

/-- `ComplianceRecordValidator.validate`: collects one format-error string
per failing check; fields that are absent (or empty strings, which are
falsy) are never checked. -/
def validate (record : RecordDraft) : List String :=
  (if truthyAndInvalid record.recordId validateHash then
    ["recordId must be a valid bytes32 hex string"] else []) ++
  (if truthyAndInvalid record.transactionHash validateHash then
    ["transactionHash must be a valid bytes32 hex string"] else []) ++
  (if truthyAndInvalid record.internalTxHash validateHash then
    ["internalTxHash must be a valid bytes32 hex string"] else []) ++
  (if truthyAndInvalid record.recipient validateAddress then
    ["recipient must be a valid Ethereum address"] else []) ++
  (if truthyAndInvalid record.executor validateAddress then
    ["executor must be a valid Ethereum address"] else []) ++
  (if truthyAndInvalid record.usdcAmount validateAmount then
    ["usdcAmount must be a numeric string"] else []) ++
  (if presentAndNegative record.ruleId then
    ["ruleId must be non-negative"] else []) ++
  (if presentAndNegative record.timestamp then
    ["timestamp must be non-negative"] else []) ++
  (if presentAndNegative record.blockNumber then
    ["blockNumber must be non-negative"] else []) ++
  (if jurisdictionInvalid record.metadata then
    ["metadata.jurisdiction must be a valid ISO 3166-1 alpha-2 code"] else [])

end ComplianceRecordValidator

/-! ## Off-chain automation service (`PayrollAutomationService`) -/

/-- The slice of the service configuration consulted by the compliance
gate (`requireKYC` / `requireAML`). -/
structure AutomationConfig where
  requireKYC : Bool
  requireAML : Bool
deriving DecidableEq, Repr

/-- Result of `circleGateway.performComplianceCheck` — an opaque external
call; statuses arrive as raw strings and are compared against the literals
`"VERIFIED"` and `"EXEMPT"`. -/
structure ComplianceCheck where
  kycStatus : String
  amlStatus : String
  riskScore : Nat
  transactionId : String
deriving DecidableEq, Repr

/-- On-chain schedule tuple returned by `getScheduledDistribution`. -/
structure ScheduledDistribution where
  recipient : String
  amount : Nat
  interval : Nat
  nextDistribution : Nat
  active : Bool
  totalDistributed : Nat
deriving DecidableEq, Repr

/-- The result object `executeScheduledDistribution` returns on success. -/
structure ScheduleExecResult where
  scheduleId : Nat
  recipient : String
  amount : Nat
  circleGatewayTxId : String
deriving DecidableEq, Repr

/-- Outcome of one `executeScheduledDistribution` call: whether the
on-chain `executeScheduledDistributions([scheduleId])` transaction was
submitted, and the returned value (`none` models returning `null`). -/
structure DistributionAttempt where
  submitted : List Nat
  result : Option ScheduleExecResult
deriving DecidableEq, Repr

/-- `PayrollAutomationService.executeScheduledDistribution` for one
schedule id, with the already-fetched schedule and compliance-check
response as inputs.  The KYC gate and then the AML gate each return
`null` without submitting any transaction; otherwise the on-chain call is
submitted and a result object is returned. -/
def executeScheduledDistribution (cfg : AutomationConfig)
    (check : ComplianceCheck) (scheduleId : Nat)
    (schedule : ScheduledDistribution) : DistributionAttempt :=
  if cfg.requireKYC && !(check.kycStatus == "VERIFIED") &&
      !(check.kycStatus == "EXEMPT") then
    { submitted := [], result := none }
  else if cfg.requireAML && !(check.amlStatus == "VERIFIED") &&
      !(check.amlStatus == "EXEMPT") then
    { submitted := [], result := none }
  else
    { submitted := [scheduleId],
      result := some { scheduleId := scheduleId,
                       recipient := schedule.recipient,
                       amount := schedule.amount,
                       circleGatewayTxId := check.transactionId } }

/-- Possible outcomes of attempting one schedule inside the batch loop of
`checkScheduledDistributions`: the call threw, returned `null`, or
returned a result object. -/
inductive ScheduleOutcome where
  | failure
  | skipped
  | success (r : ScheduleExecResult)
deriving DecidableEq, Repr

/-- Whether an outcome is a successful execution (a truthy result that
the loop pushes onto `results`). -/
def ScheduleOutcome.isSuccess : ScheduleOutcome → Bool
  | .success _ => true
  | _ => false

/-- The `for (const scheduleId of dueSchedules)` loop: a thrown error is
caught and logged (`// Continue with other schedules`), a `null` result is
not pushed; returns the ids attempted (in order) and the collected
results. -/
def runSchedules (runOne : Nat → ScheduleOutcome) :
    List Nat → List Nat × List ScheduleExecResult
  | [] => ([], [])
  | id :: rest =>
    let tail := runSchedules runOne rest
    match runOne id with
    | .success r => (id :: tail.1, r :: tail.2)
    | _ => (id :: tail.1, tail.2)

/-- Return value of `checkScheduledDistributions`:
`{ count: results.length, results }`, plus the trace of attempted ids. -/
structure BatchResult where
  attempted : List Nat
  results : List ScheduleExecResult
  count : Nat
deriving DecidableEq, Repr

/-- `PayrollAutomationService.checkScheduledDistributions`, parametrised
by the per-id outcome of `executeScheduledDistribution` (which performs
external calls). -/
def checkScheduledDistributions (runOne : Nat → ScheduleOutcome)
    (dueSchedules : List Nat) : BatchResult :=
  let run := runSchedules runOne dueSchedules
  { attempted := run.1, results := run.2, count := run.2.length }

/-! ## Association-list helpers shared by the contract models -/

/-- Look up a key in an association list. -/
def alookup (k : Nat) : List (Nat × α) → Option α
  | [] => none
  | kv :: rest => if kv.1 = k then some kv.2 else alookup k rest

/-- Replace the value stored at a key (no-op when the key is absent). -/
def aset (k : Nat) (v : α) : List (Nat × α) → List (Nat × α)
  | [] => []
  | kv :: rest => (if kv.1 = k then (k, v) else kv) :: aset k v rest

/-! ## Treasury contract models

The Solidity `Treasury` contract is part of this repository but its
source is not under `src/` — only its README (usage snippets), the
compliance docs and the minimal ABI used by the services are.  The
multisignature state machine and the allocation rule engine below are
therefore modelled from the specification text (spec sections 4.1, 4.2,
7 and 8). -/

/-- Error taxonomy of spec section 7. -/
inductive TxError where
  | AuthorizationError
  | NotFoundError
  | StateError
  | InsufficientFundsError
  | ValidationError
deriving DecidableEq, Repr

/-- One compliance-ledger movement entry, as the contract appends it on
every executed movement. -/
structure MovementRecord where
  source : TransactionSource
  recipient : String
  amount : Nat
  refId : Nat
deriving DecidableEq, Repr

/-- Modelled from the spec: a `PendingTransaction` of the multisignature
ledger (spec section 3) — recipient, amount, set of confirming
identities, write-once executed flag.  The optional payload is not
tracked (no claim concerns it). -/
structure MultisigTx where
  recipient : String
  amount : Nat
  confirmations : List String
  executed : Bool
deriving DecidableEq, Repr

/-- Modelled from the spec: the treasury state shared by the
multisignature ledger — signer set, confirmation threshold, pending
transactions by id, balance, and the append-only compliance ledger. -/
structure TreasuryState where
  signers : List String
  threshold : Nat
  txs : List (Nat × MultisigTx)
  balance : Nat
  records : List MovementRecord
deriving DecidableEq, Repr

/-- Modelled from the spec (section 4.1): the execution step shared by
`confirm` (auto-execute) and `execute` — debit the balance, append one
`ComplianceRecord` with `source = MULTISIG`, mark the transaction
executed.  Fails with `InsufficientFundsError` when the balance does not
cover the amount (all-or-nothing, spec section 7). -/
def executeTxStep (txId : Nat) (tx : MultisigTx) (s : TreasuryState) :
    Except TxError TreasuryState :=
  if tx.amount ≤ s.balance then
    Except.ok { s with
      txs := aset txId { tx with executed := true } s.txs,
      balance := s.balance - tx.amount,
      records := s.records ++
        [{ source := TransactionSource.MULTISIG_TRANSACTION,
           recipient := tx.recipient, amount := tx.amount, refId := txId }] }
  else
    Except.error TxError.InsufficientFundsError

/-- Modelled from the spec (section 4.1): `confirm(txId)` — fails with
`AuthorizationError` if the caller is not a current signer, `StateError`
if the transaction is already executed or already confirmed by that
signer; records the confirmation, and if confirmations reach the
threshold, executes inside the same call. -/
def confirm (caller : String) (txId : Nat) (s : TreasuryState) :
    Except TxError TreasuryState :=
  if caller ∈ s.signers then
    match alookup txId s.txs with
    | none => Except.error TxError.NotFoundError
    | some tx =>
      if tx.executed then Except.error TxError.StateError
      else if caller ∈ tx.confirmations then Except.error TxError.StateError
      else if s.threshold ≤ (caller :: tx.confirmations).length then
        executeTxStep txId
          { tx with confirmations := caller :: tx.confirmations } s
      else
        Except.ok { s with
          txs := aset txId
            { tx with confirmations := caller :: tx.confirmations } s.txs }
  else
    Except.error TxError.AuthorizationError

/-- Modelled from the spec (section 4.1): `execute(txId)` — the explicit
execute step; fails with `StateError` if already executed or the
threshold is unmet. -/
def executeTransaction (txId : Nat) (s : TreasuryState) :
    Except TxError TreasuryState :=
  match alookup txId s.txs with
  | none => Except.error TxError.NotFoundError
  | some tx =>
    if tx.executed then Except.error TxError.StateError
    else if tx.confirmations.length < s.threshold then
      Except.error TxError.StateError
    else executeTxStep txId tx s

/-- Allocation rule kinds (spec section 3). -/
inductive AllocationType where
  | PERCENTAGE
  | FIXED_AMOUNT
  | BALANCE_THRESHOLD
deriving DecidableEq, Repr

/-- Modelled from the spec: an `AllocationRule` (spec section 3) —
kind, recipient, value, budgetLimit (0 = unlimited), spent, priority,
cooldown, lastExecuted, active. -/
structure AllocationRule where
  recipient : String
  kind : AllocationType
  value : Nat
  budgetLimit : Nat
  spent : Nat
  priority : Nat
  cooldown : Nat
  lastExecuted : Nat
  active : Bool
deriving DecidableEq, Repr

/-- Modelled from the spec: treasury state seen by the allocation rule
engine — balance, rules by id, and the compliance ledger. -/
structure AllocState where
  balance : Nat
  rules : List (Nat × AllocationRule)
  records : List MovementRecord
deriving DecidableEq, Repr

/-- Modelled from the spec (section 4.2): kind-specific eligibility and
amount.  PERCENTAGE — balance > 0, amount = balance × bps / 10000;
FIXED_AMOUNT — balance ≥ value, amount = value; BALANCE_THRESHOLD —
balance > value, amount = balance − value.  `none` means not eligible. -/
def allocationAmount (balance : Nat) (rule : AllocationRule) : Option Nat :=
  match rule.kind with
  | AllocationType.PERCENTAGE =>
    if 0 < balance then some (balance * rule.value / 10000) else none
  | AllocationType.FIXED_AMOUNT =>
    if rule.value ≤ balance then some rule.value else none
  | AllocationType.BALANCE_THRESHOLD =>
    if rule.value < balance then some (balance - rule.value) else none

/-- Modelled from the spec (section 4.2): clamp the computed amount to
the remaining budget `budgetLimit − spent`; unlimited when
`budgetLimit = 0`. -/
def clampToBudget (rule : AllocationRule) (amount : Nat) : Nat :=
  if rule.budgetLimit = 0 then amount
  else min amount (rule.budgetLimit - rule.spent)

/-- Modelled from the spec (sections 4.2 and 7): execute one allocation
rule at time `now`.  Inactive rule, unelapsed cooldown, ineligibility,
zero clamped amount or insufficient balance each soft-skip the rule —
the state is returned unchanged with `false`, never an error.  On
success the balance is debited, `spent` incremented, `lastExecuted` set,
and one `ComplianceRecord(source = ALLOCATION_RULE)` appended. -/
def executeAllocationStep (s : AllocState) (ruleId now : Nat) :
    AllocState × Bool :=
  match alookup ruleId s.rules with
  | none => (s, false)
  | some rule =>
    if !rule.active then (s, false)
    else if now < rule.lastExecuted + rule.cooldown then (s, false)
    else
      match allocationAmount s.balance rule with
      | none => (s, false)
      | some amount =>
        if clampToBudget rule amount = 0 then (s, false)
        else if s.balance < clampToBudget rule amount then (s, false)
        else
          ({ balance := s.balance - clampToBudget rule amount,
             rules := aset ruleId
               ({ rule with
                   spent := rule.spent + clampToBudget rule amount,
                   lastExecuted := now })
               s.rules,
             records := s.records ++
               [{ source := TransactionSource.ALLOCATION_RULE,
                  recipient := rule.recipient,
                  amount := clampToBudget rule amount,
                  refId := ruleId }] }, true)

/-- Modelled from the spec (section 4.2): `executeAllocations` — execute
the given (ruleId, executed-at-time) commands in order, counting the
rules actually executed; skipped rules do not abort the batch. -/
def executeAllocations (s : AllocState) : List (Nat × Nat) → AllocState × Nat
  | [] => (s, 0)
  | cmd :: rest =>
    ((executeAllocations (executeAllocationStep s cmd.1 cmd.2).1 rest).1,
     (if (executeAllocationStep s cmd.1 cmd.2).2 then 1 else 0) +
       (executeAllocations (executeAllocationStep s cmd.1 cmd.2).1 rest).2)

/-! ## Concrete sample values used by witnesses and counterexamples -/

/-- A sample TypeScript compliance record. -/
def sampleRecord : ComplianceRecord :=
  { recordId := "0x11"
    transactionHash := "0x22"
    internalTxHash := "0x11"
    ruleId := 7
    source := TransactionSource.SCHEDULED_DISTRIBUTION
    recipient := "0xE1"
    usdcAmount := "2500000"
    usdcAmountFormatted := formatUSDCAmount "2500000"
    kycStatus := ComplianceStatus.UNKNOWN
    amlStatus := ComplianceStatus.UNKNOWN
    timestamp := 1704067200
    timestampISO := timestampToISO 1704067200
    blockNumber := 123
    executor := "0xE2"
    reconciled := false
    reconciledAt := 0 }

/-- A sample Mongoose compliance document. -/
def sampleMongoose : MongooseComplianceRecord :=
  { recordId := "0x11"
    transactionHash := "0x22"
    internalTxHash := "0x11"
    ruleId := 7
    source := TransactionSource.SCHEDULED_DISTRIBUTION
    recipient := "0xE1"
    usdcAmount := "2500000"
    usdcAmountFormatted := formatUSDCAmount "2500000"
    kycStatus := ComplianceStatus.UNKNOWN
    amlStatus := ComplianceStatus.UNKNOWN
    timestamp := 1704067200
    timestampISO := 1704067200000
    blockNumber := 123
    executor := "0xE2"
    reconciled := false
    reconciledAt := 0 }

/-- A sample multisignature treasury state: three signers, threshold 2,
one pending transaction already confirmed by the first signer. -/
def sampleTreasury : TreasuryState :=
  { signers := ["0xA1", "0xB2", "0xC3"], threshold := 2, balance := 100,
    txs := [(1, { recipient := "0xR9", amount := 40,
                  confirmations := ["0xA1"], executed := false })],
    records := [] }

/-- The pending transaction of `sampleTreasury` after the second signer
confirms and the auto-execution marks it executed. -/
def sampleTxDone : MultisigTx :=
  { recipient := "0xR9", amount := 40,
    confirmations := ["0xB2", "0xA1"], executed := true }

/-- `sampleTreasury` after the second signer confirms: the transaction
auto-executed inside that call. -/
def sampleTreasuryDone : TreasuryState :=
  { signers := ["0xA1", "0xB2", "0xC3"], threshold := 2, balance := 60,
    txs := [(1, sampleTxDone)],
    records := [{ source := TransactionSource.MULTISIG_TRANSACTION,
                  recipient := "0xR9", amount := 40, refId := 1 }] }

/-- An active fixed-amount allocation rule: value 60, budget limit 100,
nothing spent yet. -/
def sampleAllocRule : AllocationRule :=
  { recipient := "0xE1", kind := AllocationType.FIXED_AMOUNT,
    value := 60, budgetLimit := 100, spent := 0, priority := 1,
    cooldown := 0, lastExecuted := 0, active := true }

/-- `sampleAllocRule` after two executions (60 then 40, clamped by the
budget) at times 10 and 20. -/
def sampleAllocRuleFinal : AllocationRule :=
  { recipient := "0xE1", kind := AllocationType.FIXED_AMOUNT,
    value := 60, budgetLimit := 100, spent := 100, priority := 1,
    cooldown := 0, lastExecuted := 20, active := true }

/-- A sample allocation engine state holding `sampleAllocRule`. -/
def sampleAlloc : AllocState :=
  { balance := 1000, rules := [(1, sampleAllocRule)], records := [] }

/-- An allocation engine state whose single rule has exhausted its
budget (`spent = budgetLimit = 100`). -/
def sampleAllocSpent : AllocState :=
  { balance := 800, rules := [(1, sampleAllocRuleFinal)], records := [] }

/-! ## Helper lemmas -/

theorem alookup_aset_self (k : Nat) (v : α) (l : List (Nat × α)) :
    alookup k (aset k v l) = (alookup k l).map (fun _ => v) := by
  induction l with
  | nil => rfl
  | cons kv rest ih =>
    by_cases h : kv.1 = k
    · simp [alookup, aset, h]
    · simp [alookup, aset, h, ih]

theorem alookup_aset_ne (k j : Nat) (v : α) (l : List (Nat × α))
    (h : j ≠ k) : alookup j (aset k v l) = alookup j l := by
  induction l with
  | nil => rfl
  | cons kv rest ih =>
    by_cases hk : kv.1 = k
    · have hkj : ¬(k = j) := fun hh => h hh.symm
      simp [alookup, aset, hk, hkj, ih]
    · by_cases hj : kv.1 = j <;> simp [alookup, aset, hk, hj, h, ih]

theorem jsOrString_some_of_ne (s : String) (b : Option String) (h : s ≠ "") :
    jsOrString (some s) b = some s := by
  simp [jsOrString, h]

theorem jsOrString_falsy (a b : Option String) (h : a = none ∨ a = some "") :
    jsOrString a b = b := by
  rcases h with h | h <;> subst h <;> simp [jsOrString]

/-! ## Claim theorems -/

/-- C3: for every compliance record and every pair of supplied statuses,
the status-update operation (`ComplianceRecordUtils.updateComplianceStatus`
and the Mongoose `updateComplianceStatus` method) overwrites `kycStatus`
and `amlStatus` with the supplied values, and writes `circleGatewayTxId`
(respectively `arcTransparencyId`) only when the supplied value is a
non-empty string, otherwise preserving the record's existing value for
that field. -/
theorem updateComplianceStatus_overwrite_preserve
    (r : ComplianceRecord) (m : MongooseComplianceRecord)
    (kyc aml : ComplianceStatus) (gw ar : Option String) :
    (ComplianceRecordUtils.updateComplianceStatus r kyc aml gw ar).kycStatus = kyc ∧
    (ComplianceRecordUtils.updateComplianceStatus r kyc aml gw ar).amlStatus = aml ∧
    (∀ s, gw = some s → s ≠ "" →
      (ComplianceRecordUtils.updateComplianceStatus r kyc aml gw ar).circleGatewayTxId = some s) ∧
    (gw = none ∨ gw = some "" →
      (ComplianceRecordUtils.updateComplianceStatus r kyc aml gw ar).circleGatewayTxId =
        r.circleGatewayTxId) ∧
    (∀ s, ar = some s → s ≠ "" →
      (ComplianceRecordUtils.updateComplianceStatus r kyc aml gw ar).arcTransparencyId = some s) ∧
    (ar = none ∨ ar = some "" →
      (ComplianceRecordUtils.updateComplianceStatus r kyc aml gw ar).arcTransparencyId =
        r.arcTransparencyId) ∧
    (m.updateComplianceStatus kyc aml gw ar).kycStatus = kyc ∧
    (m.updateComplianceStatus kyc aml gw ar).amlStatus = aml ∧
    (∀ s, gw = some s → s ≠ "" →
      (m.updateComplianceStatus kyc aml gw ar).circleGatewayTxId = some s) ∧
    (gw = none ∨ gw = some "" →
      (m.updateComplianceStatus kyc aml gw ar).circleGatewayTxId =
        m.circleGatewayTxId) ∧
    (∀ s, ar = some s → s ≠ "" →
      (m.updateComplianceStatus kyc aml gw ar).arcTransparencyId = some s) ∧
    (ar = none ∨ ar = some "" →
      (m.updateComplianceStatus kyc aml gw ar).arcTransparencyId =
        m.arcTransparencyId) := by
  refine ⟨rfl, rfl, ?_, ?_, ?_, ?_, rfl, rfl, ?_, ?_, ?_, ?_⟩
  · rintro s rfl hs
    exact jsOrString_some_of_ne s r.circleGatewayTxId hs
  · intro h
    exact jsOrString_falsy gw r.circleGatewayTxId h
  · rintro s rfl hs
    exact jsOrString_some_of_ne s r.arcTransparencyId hs
  · intro h
    exact jsOrString_falsy ar r.arcTransparencyId h
  · rintro s rfl hs
    exact jsOrString_some_of_ne s m.circleGatewayTxId hs
  · intro h
    exact jsOrString_falsy gw m.circleGatewayTxId h
  · rintro s rfl hs
    exact jsOrString_some_of_ne s m.arcTransparencyId hs
  · intro h
    exact jsOrString_falsy ar m.arcTransparencyId h

/-- Witness for C3 at concrete inputs: a non-empty gateway id is written,
an empty transparency id preserves the stored value, on both models. -/
theorem updateComplianceStatus_overwrite_preserve_witness :
    (ComplianceRecordUtils.updateComplianceStatus sampleRecord
      ComplianceStatus.VERIFIED ComplianceStatus.REJECTED
      (some "cg_1") (some "")).kycStatus = ComplianceStatus.VERIFIED ∧
    (ComplianceRecordUtils.updateComplianceStatus sampleRecord
      ComplianceStatus.VERIFIED ComplianceStatus.REJECTED
      (some "cg_1") (some "")).circleGatewayTxId = some "cg_1" ∧
    (ComplianceRecordUtils.updateComplianceStatus sampleRecord
      ComplianceStatus.VERIFIED ComplianceStatus.REJECTED
      (some "cg_1") (some "")).arcTransparencyId =
        sampleRecord.arcTransparencyId ∧
    (sampleMongoose.updateComplianceStatus
      ComplianceStatus.VERIFIED ComplianceStatus.REJECTED
      (some "cg_1") (some "")).amlStatus = ComplianceStatus.REJECTED ∧
    (sampleMongoose.updateComplianceStatus
      ComplianceStatus.VERIFIED ComplianceStatus.REJECTED
      (some "cg_1") (some "")).circleGatewayTxId = some "cg_1" ∧
    (sampleMongoose.updateComplianceStatus
      ComplianceStatus.VERIFIED ComplianceStatus.REJECTED
      (some "cg_1") (some "")).arcTransparencyId =
        sampleMongoose.arcTransparencyId := by
  have h := updateComplianceStatus_overwrite_preserve sampleRecord
    sampleMongoose ComplianceStatus.VERIFIED ComplianceStatus.REJECTED
    (some "cg_1") (some "")
  exact ⟨h.1, h.2.2.1 "cg_1" rfl (by decide),
    h.2.2.2.2.2.1 (Or.inr rfl), h.2.2.2.2.2.2.2.1,
    h.2.2.2.2.2.2.2.2.1 "cg_1" rfl (by decide),
    h.2.2.2.2.2.2.2.2.2.2.2 (Or.inr rfl)⟩

/-- C4: every compliance record created from an executed movement
(`ComplianceRecordUtils.fromEvent`, and the Mongoose schema defaults) is
initialized with `kycStatus = UNKNOWN`, `amlStatus = UNKNOWN`,
`reconciled = false`, and `reconciledAt = 0`, for all input values. -/
theorem fromEvent_initializes_status
    (recordId transactionHash recipient : String) (ruleId : Nat)
    (source : TransactionSource) (amount executor : String)
    (blockNumber timestamp : Nat)
    (mRecordId mTransactionHash mInternalTxHash : String) (mRuleId : Nat)
    (mSource : TransactionSource) (mRecipient mUsdcAmount : String)
    (mFormatted : Option Rat) (mTimestamp mTimestampISO mBlockNumber : Nat)
    (mExecutor : String) :
    (ComplianceRecordUtils.fromEvent recordId transactionHash recipient
      ruleId source amount executor blockNumber timestamp).kycStatus =
        ComplianceStatus.UNKNOWN ∧
    (ComplianceRecordUtils.fromEvent recordId transactionHash recipient
      ruleId source amount executor blockNumber timestamp).amlStatus =
        ComplianceStatus.UNKNOWN ∧
    (ComplianceRecordUtils.fromEvent recordId transactionHash recipient
      ruleId source amount executor blockNumber timestamp).reconciled = false ∧
    (ComplianceRecordUtils.fromEvent recordId transactionHash recipient
      ruleId source amount executor blockNumber timestamp).reconciledAt = 0 ∧
    (MongooseComplianceRecord.create mRecordId mTransactionHash
      mInternalTxHash mRuleId mSource mRecipient mUsdcAmount mFormatted
      mTimestamp mTimestampISO mBlockNumber mExecutor).kycStatus =
        ComplianceStatus.UNKNOWN ∧
    (MongooseComplianceRecord.create mRecordId mTransactionHash
      mInternalTxHash mRuleId mSource mRecipient mUsdcAmount mFormatted
      mTimestamp mTimestampISO mBlockNumber mExecutor).amlStatus =
        ComplianceStatus.UNKNOWN ∧
    (MongooseComplianceRecord.create mRecordId mTransactionHash
      mInternalTxHash mRuleId mSource mRecipient mUsdcAmount mFormatted
      mTimestamp mTimestampISO mBlockNumber mExecutor).reconciled = false ∧
    (MongooseComplianceRecord.create mRecordId mTransactionHash
      mInternalTxHash mRuleId mSource mRecipient mUsdcAmount mFormatted
      mTimestamp mTimestampISO mBlockNumber mExecutor).reconciledAt = 0 :=
  ⟨rfl, rfl, rfl, rfl, rfl, rfl, rfl, rfl⟩

/-- C6: with the clock held fixed, reconciling an already-reconciled
record is an idempotent no-op, on both the TypeScript and the Mongoose
model; neither implementation has a rejection path (both functions are
total). -/
theorem markReconciled_idempotent (nowMs : Nat) (r : ComplianceRecord)
    (m : MongooseComplianceRecord) :
    ComplianceRecordUtils.markReconciled nowMs
        (ComplianceRecordUtils.markReconciled nowMs r) =
      ComplianceRecordUtils.markReconciled nowMs r ∧
    (m.markReconciled nowMs).markReconciled nowMs = m.markReconciled nowMs :=
  ⟨rfl, rfl⟩

/-- C7: `updateComplianceStatus` and `markReconciled`
(`ComplianceRecordUtils`) leave every creation-time field unchanged:
recordId, transactionHash, internalTxHash, ruleId, source, recipient,
usdcAmount, usdcAmountFormatted, timestamp, timestampISO, blockNumber,
executor, and metadata. -/
theorem complianceRecord_mutators_frame (r : ComplianceRecord)
    (nowMs : Nat) (kyc aml : ComplianceStatus) (gw ar : Option String) :
    ((ComplianceRecordUtils.markReconciled nowMs r).recordId = r.recordId ∧
     (ComplianceRecordUtils.markReconciled nowMs r).transactionHash = r.transactionHash ∧
     (ComplianceRecordUtils.markReconciled nowMs r).internalTxHash = r.internalTxHash ∧
     (ComplianceRecordUtils.markReconciled nowMs r).ruleId = r.ruleId ∧
     (ComplianceRecordUtils.markReconciled nowMs r).source = r.source ∧
     (ComplianceRecordUtils.markReconciled nowMs r).recipient = r.recipient ∧
     (ComplianceRecordUtils.markReconciled nowMs r).usdcAmount = r.usdcAmount ∧
     (ComplianceRecordUtils.markReconciled nowMs r).usdcAmountFormatted = r.usdcAmountFormatted ∧
     (ComplianceRecordUtils.markReconciled nowMs r).timestamp = r.timestamp ∧
     (ComplianceRecordUtils.markReconciled nowMs r).timestampISO = r.timestampISO ∧
     (ComplianceRecordUtils.markReconciled nowMs r).blockNumber = r.blockNumber ∧
     (ComplianceRecordUtils.markReconciled nowMs r).executor = r.executor ∧
     (ComplianceRecordUtils.markReconciled nowMs r).metadata = r.metadata) ∧
    ((ComplianceRecordUtils.updateComplianceStatus r kyc aml gw ar).recordId = r.recordId ∧
     (ComplianceRecordUtils.updateComplianceStatus r kyc aml gw ar).transactionHash = r.transactionHash ∧
     (ComplianceRecordUtils.updateComplianceStatus r kyc aml gw ar).internalTxHash = r.internalTxHash ∧
     (ComplianceRecordUtils.updateComplianceStatus r kyc aml gw ar).ruleId = r.ruleId ∧
     (ComplianceRecordUtils.updateComplianceStatus r kyc aml gw ar).source = r.source ∧
     (ComplianceRecordUtils.updateComplianceStatus r kyc aml gw ar).recipient = r.recipient ∧
     (ComplianceRecordUtils.updateComplianceStatus r kyc aml gw ar).usdcAmount = r.usdcAmount ∧
     (ComplianceRecordUtils.updateComplianceStatus r kyc aml gw ar).usdcAmountFormatted = r.usdcAmountFormatted ∧
     (ComplianceRecordUtils.updateComplianceStatus r kyc aml gw ar).timestamp = r.timestamp ∧
     (ComplianceRecordUtils.updateComplianceStatus r kyc aml gw ar).timestampISO = r.timestampISO ∧
     (ComplianceRecordUtils.updateComplianceStatus r kyc aml gw ar).blockNumber = r.blockNumber ∧
     (ComplianceRecordUtils.updateComplianceStatus r kyc aml gw ar).executor = r.executor ∧
     (ComplianceRecordUtils.updateComplianceStatus r kyc aml gw ar).metadata = r.metadata) :=
  ⟨⟨rfl, rfl, rfl, rfl, rfl, rfl, rfl, rfl, rfl, rfl, rfl, rfl, rfl⟩,
   ⟨rfl, rfl, rfl, rfl, rfl, rfl, rfl, rfl, rfl, rfl, rfl, rfl, rfl⟩⟩

/-- C5 counterexample: the Mongoose `markReconciled` stores `new Date()`
— the current instant at millisecond precision — in `reconciledAtISO`,
not the rendering of `reconciledAt`.  The ISO-8601 rendering of the
stored `reconciledAt` (a whole-second Unix timestamp) is the `Date` at
`reconciledAt * 1000` milliseconds, exactly what the schema's own
pre-save hook computes (`new Date(this.reconciledAt * 1000)`).  With the
clock at 1500 ms, `reconciledAt = 1` second, whose rendering is the Date
at 1000 ms, but the method stores the Date at 1500 ms — so the claim
fails on the Mongoose method as stated. -/
theorem mongoose_markReconciled_iso_counterexample :
    ¬ ((sampleMongoose.markReconciled 1500).reconciledAtISO =
        some ((sampleMongoose.markReconciled 1500).reconciledAt * 1000)) := by
  decide

/-- C5 (amended): reconciling a record sets `reconciled = true` and
`reconciledAt` to the current clock floored to whole seconds, on both
models.  The TypeScript `markReconciled` additionally sets
`reconciledAtISO` to the ISO-8601 rendering of that same timestamp; the
Mongoose method instead stores the current `Date` at millisecond
precision, which agrees with the rendering of `reconciledAt` exactly
when the clock lies on a whole second. -/
theorem markReconciled_sets_reconciliation (nowMs : Nat)
    (r : ComplianceRecord) (m : MongooseComplianceRecord) :
    (ComplianceRecordUtils.markReconciled nowMs r).reconciled = true ∧
    (ComplianceRecordUtils.markReconciled nowMs r).reconciledAt = nowMs / 1000 ∧
    (ComplianceRecordUtils.markReconciled nowMs r).reconciledAtISO =
      some (timestampToISO
        ((ComplianceRecordUtils.markReconciled nowMs r).reconciledAt)) ∧
    (m.markReconciled nowMs).reconciled = true ∧
    (m.markReconciled nowMs).reconciledAt = nowMs / 1000 ∧
    (m.markReconciled nowMs).reconciledAtISO = some nowMs ∧
    (nowMs % 1000 = 0 →
      (m.markReconciled nowMs).reconciledAtISO =
        some ((m.markReconciled nowMs).reconciledAt * 1000)) := by
  refine ⟨rfl, rfl, rfl, rfl, rfl, rfl, ?_⟩
  intro h
  show some nowMs = some (nowMs / 1000 * 1000)
  rw [Nat.div_mul_cancel (Nat.dvd_of_mod_eq_zero h)]

/-- Witness for C5 (amended) with the clock on a whole second
(`nowMs = 2000`): the Mongoose `reconciledAtISO` then coincides with the
rendering of `reconciledAt`. -/
theorem markReconciled_sets_reconciliation_witness :
    2000 % 1000 = 0 ∧
    (ComplianceRecordUtils.markReconciled 2000 sampleRecord).reconciledAt = 2 ∧
    (sampleMongoose.markReconciled 2000).reconciledAtISO =
      some ((sampleMongoose.markReconciled 2000).reconciledAt * 1000) := by
  have h := markReconciled_sets_reconciliation 2000 sampleRecord sampleMongoose
  exact ⟨by decide, h.2.1, h.2.2.2.2.2.2 (by decide)⟩

/-- C8: in the off-chain automation service, if `config.requireKYC` is
set and the provider's `kycStatus` is neither `VERIFIED` nor `EXEMPT`
(or `config.requireAML` is set and the returned `amlStatus` is neither
`VERIFIED` nor `EXEMPT`), then `executeScheduledDistribution` returns
`null` without submitting the on-chain `executeScheduledDistributions`
transaction for that schedule. -/
theorem executeScheduledDistribution_compliance_gate
    (cfg : AutomationConfig) (check : ComplianceCheck) (scheduleId : Nat)
    (schedule : ScheduledDistribution)
    (h : (cfg.requireKYC = true ∧ check.kycStatus ≠ "VERIFIED" ∧
            check.kycStatus ≠ "EXEMPT") ∨
         (cfg.requireAML = true ∧ check.amlStatus ≠ "VERIFIED" ∧
            check.amlStatus ≠ "EXEMPT")) :
    executeScheduledDistribution cfg check scheduleId schedule =
      { submitted := [], result := none } := by
  by_cases hk : (cfg.requireKYC && !(check.kycStatus == "VERIFIED") &&
      !(check.kycStatus == "EXEMPT")) = true
  · simp [executeScheduledDistribution, hk]
  · by_cases ha : (cfg.requireAML && !(check.amlStatus == "VERIFIED") &&
        !(check.amlStatus == "EXEMPT")) = true
    · simp [executeScheduledDistribution, hk, ha]
    · exfalso
      rcases h with ⟨h1, h2, h3⟩ | ⟨h1, h2, h3⟩
      · exact hk (by simp [h1, h2, h3])
      · exact ha (by simp [h1, h2, h3])

/-- Witness for C8: KYC required but the provider reports `PENDING`. -/
theorem executeScheduledDistribution_compliance_gate_witness :
    executeScheduledDistribution
      { requireKYC := true, requireAML := true }
      { kycStatus := "PENDING", amlStatus := "VERIFIED", riskScore := 10,
        transactionId := "cg_tx_1" }
      3
      { recipient := "0xE1", amount := 200, interval := 30, nextDistribution := 60,
        active := true, totalDistributed := 0 } =
      { submitted := [], result := none } :=
  executeScheduledDistribution_compliance_gate
    { requireKYC := true, requireAML := true }
    { kycStatus := "PENDING", amlStatus := "VERIFIED", riskScore := 10,
      transactionId := "cg_tx_1" }
    3
    { recipient := "0xE1", amount := 200, interval := 30, nextDistribution := 60,
      active := true, totalDistributed := 0 }
    (Or.inl ⟨rfl, by decide, by decide⟩)

/-- Every id in the batch is attempted, in order, regardless of per-id
outcomes. -/
theorem runSchedules_attempts_all (runOne : Nat → ScheduleOutcome) :
    ∀ due : List Nat, (runSchedules runOne due).1 = due := by
  intro due
  induction due with
  | nil => rfl
  | cons id rest ih =>
    cases h : runOne id <;> simp [runSchedules, h, ih]

/-- The collected results are exactly the successful outcomes. -/
theorem runSchedules_counts_successes (runOne : Nat → ScheduleOutcome) :
    ∀ due : List Nat,
      (runSchedules runOne due).2.length =
        (due.filter (fun id => (runOne id).isSuccess)).length := by
  intro due
  induction due with
  | nil => rfl
  | cons id rest ih =>
    cases h : runOne id <;>
      simp [runSchedules, h, ih, ScheduleOutcome.isSuccess, List.filter_cons]

/-- C9: in the automation service's `checkScheduledDistributions`, an
error raised while executing one id does not abort the batch: every
remaining id in the list is still attempted, and the call returns the
count of items that executed successfully (a run in which every item
fails still completes with count = 0). -/
theorem checkScheduledDistributions_soft_skip
    (runOne : Nat → ScheduleOutcome) (due : List Nat) :
    (checkScheduledDistributions runOne due).attempted = due ∧
    (checkScheduledDistributions runOne due).count =
      (due.filter (fun id => (runOne id).isSuccess)).length ∧
    ((∀ id ∈ due, (runOne id).isSuccess = false) →
      (checkScheduledDistributions runOne due).count = 0) := by
  refine ⟨runSchedules_attempts_all runOne due,
    runSchedules_counts_successes runOne due, ?_⟩
  intro hfail
  show (runSchedules runOne due).2.length = 0
  rw [runSchedules_counts_successes runOne due]
  simp only [List.length_eq_zero]
  exact List.filter_eq_nil_iff.mpr (by simpa using hfail)

/-- Witness for C9: three due ids, every execution throws — all three
are attempted and the batch completes with count 0. -/
theorem checkScheduledDistributions_soft_skip_witness :
    (checkScheduledDistributions (fun _ => ScheduleOutcome.failure)
      [1, 2, 3]).attempted = [1, 2, 3] ∧
    (checkScheduledDistributions (fun _ => ScheduleOutcome.failure)
      [1, 2, 3]).count = 0 := by
  have h := checkScheduledDistributions_soft_skip
    (fun _ => ScheduleOutcome.failure) [1, 2, 3]
  exact ⟨h.1, h.2.2 (by decide)⟩

/-- C10: `ComplianceRecordValidator.validate` enforces only format
constraints on fields that are present and performs no required-field
checking: the empty partial record yields the empty error list, and each
of the ten error messages can only arise when its field is actually
present in the draft. -/
theorem validate_only_checks_present_fields :
    ComplianceRecordValidator.validate {} = [] ∧
    ∀ r : RecordDraft,
      ("recordId must be a valid bytes32 hex string" ∈
          ComplianceRecordValidator.validate r → r.recordId ≠ none) ∧
      ("transactionHash must be a valid bytes32 hex string" ∈
          ComplianceRecordValidator.validate r → r.transactionHash ≠ none) ∧
      ("internalTxHash must be a valid bytes32 hex string" ∈
          ComplianceRecordValidator.validate r → r.internalTxHash ≠ none) ∧
      ("recipient must be a valid Ethereum address" ∈
          ComplianceRecordValidator.validate r → r.recipient ≠ none) ∧
      ("executor must be a valid Ethereum address" ∈
          ComplianceRecordValidator.validate r → r.executor ≠ none) ∧
      ("usdcAmount must be a numeric string" ∈
          ComplianceRecordValidator.validate r → r.usdcAmount ≠ none) ∧
      ("ruleId must be non-negative" ∈
          ComplianceRecordValidator.validate r → r.ruleId ≠ none) ∧
      ("timestamp must be non-negative" ∈
          ComplianceRecordValidator.validate r → r.timestamp ≠ none) ∧
      ("blockNumber must be non-negative" ∈
          ComplianceRecordValidator.validate r → r.blockNumber ≠ none) ∧
      ("metadata.jurisdiction must be a valid ISO 3166-1 alpha-2 code" ∈
          ComplianceRecordValidator.validate r → r.metadata ≠ none) := by
  constructor
  · decide
  · intro r
    cases r
    refine ⟨?_, ?_, ?_, ?_, ?_, ?_, ?_, ?_, ?_, ?_⟩ <;>
      · intro hmem hno
        simp only at hno
        subst hno
        revert hmem
        simp [ComplianceRecordValidator.validate,
          ComplianceRecordValidator.truthyAndInvalid,
          ComplianceRecordValidator.presentAndNegative,
          ComplianceRecordValidator.jurisdictionInvalid]

/-- Witness for C10: the empty draft validates cleanly, and the
`recordId` error can be observed exactly when a (malformed) `recordId`
is present. -/
theorem validate_only_checks_present_fields_witness :
    ComplianceRecordValidator.validate {} = [] ∧
    ({ recordId := some "xyz" } : RecordDraft).recordId ≠ none := by
  have h := validate_only_checks_present_fields
  exact ⟨h.1, (h.2 { recordId := some "xyz" }).1 (by decide)⟩

/-- A successful `confirm` whose post-state transaction has reached the
threshold executed it inside that same call: the stored transaction is
marked executed, exactly one compliance record was appended, and the
balance was debited by the transaction amount. -/
theorem confirm_threshold_executes (caller : String) (txId : Nat)
    (s s2 : TreasuryState) (tx2 : MultisigTx)
    (hok : confirm caller txId s = Except.ok s2)
    (hlook : alookup txId s2.txs = some tx2)
    (hth : s.threshold ≤ tx2.confirmations.length) :
    tx2.executed = true ∧
    s2.records.length = s.records.length + 1 ∧
    s2.balance + tx2.amount = s.balance := by
  unfold confirm at hok
  split at hok
  · split at hok
    · cases hok
    · rename_i tx heq
      split at hok
      · cases hok
      · split at hok
        · cases hok
        · split at hok
          · unfold executeTxStep at hok
            split at hok
            · rename_i hbal
              injection hok with hs2
              subst hs2
              dsimp only at hlook
              rw [alookup_aset_self, heq, Option.map_some'] at hlook
              injection hlook with htx2
              subst htx2
              refine ⟨rfl, by simp, ?_⟩
              exact Nat.sub_add_cancel hbal
            · cases hok
          · rename_i hlt
            injection hok with hs2
            subst hs2
            dsimp only at hlook
            rw [alookup_aset_self, heq, Option.map_some'] at hlook
            injection hlook with htx2
            subst htx2
            exact absurd hth hlt
  · cases hok

/-- Once a transaction is executed, any further `confirm` by a signer on
that id fails with `StateError`. -/
theorem confirm_after_executed (caller : String) (txId : Nat)
    (s : TreasuryState) (tx : MultisigTx)
    (hsig : caller ∈ s.signers)
    (hlook : alookup txId s.txs = some tx)
    (hex : tx.executed = true) :
    confirm caller txId s = Except.error TxError.StateError := by
  simp [confirm, hsig, hlook, hex]

/-- Once a transaction is executed, any further `execute` call on that
id fails with `StateError`. -/
theorem executeTransaction_after_executed (txId : Nat) (s : TreasuryState)
    (tx : MultisigTx) (hlook : alookup txId s.txs = some tx)
    (hex : tx.executed = true) :
    executeTransaction txId s = Except.error TxError.StateError := by
  simp [executeTransaction, hlook, hex]

/-- C1: for every pending multisignature transaction, when confirmations
reach the threshold the transaction is executed exactly once, inside the
same `confirm` call that reached the threshold (debiting the balance and
appending one MULTISIG compliance record), and every subsequent `confirm`
(by a signer) or `execute` call on that transaction id fails with
`StateError` — so no second execution can occur. -/
theorem multisig_executes_once_at_threshold :
    (∀ (caller : String) (txId : Nat) (s s2 : TreasuryState)
        (tx2 : MultisigTx),
        confirm caller txId s = Except.ok s2 →
        alookup txId s2.txs = some tx2 →
        s.threshold ≤ tx2.confirmations.length →
        tx2.executed = true ∧
        s2.records.length = s.records.length + 1 ∧
        s2.balance + tx2.amount = s.balance) ∧
    (∀ (caller : String) (txId : Nat) (s : TreasuryState) (tx : MultisigTx),
        caller ∈ s.signers →
        alookup txId s.txs = some tx →
        tx.executed = true →
        confirm caller txId s = Except.error TxError.StateError) ∧
    (∀ (txId : Nat) (s : TreasuryState) (tx : MultisigTx),
        alookup txId s.txs = some tx →
        tx.executed = true →
        executeTransaction txId s = Except.error TxError.StateError) :=
  ⟨confirm_threshold_executes, confirm_after_executed,
   executeTransaction_after_executed⟩

/-- Witness for C1: with signers {A, B, C} and threshold 2, B's confirm
reaches the threshold and auto-executes; A's later confirm and an
explicit execute both fail with `StateError`. -/
theorem multisig_executes_once_at_threshold_witness :
    (sampleTxDone.executed = true ∧
     sampleTreasuryDone.records.length = sampleTreasury.records.length + 1 ∧
     sampleTreasuryDone.balance + sampleTxDone.amount =
       sampleTreasury.balance) ∧
    confirm "0xA1" 1 sampleTreasuryDone = Except.error TxError.StateError ∧
    executeTransaction 1 sampleTreasuryDone =
      Except.error TxError.StateError := by
  have h := multisig_executes_once_at_threshold
  exact ⟨h.1 "0xB2" 1 sampleTreasury sampleTreasuryDone sampleTxDone rfl rfl
      (by decide),
    h.2.1 "0xA1" 1 sampleTreasuryDone sampleTxDone (by decide) rfl rfl,
    h.2.2 1 sampleTreasuryDone sampleTxDone rfl rfl⟩

/-- One allocation execution step preserves, for a fixed rule id, both
the rule's budget limit and the bound `spent ≤ budgetLimit`. -/
theorem executeAllocationStep_preserves_budget (B ruleId j now : Nat)
    (hB : 0 < B) (s : AllocState)
    (hP : ∀ r, alookup ruleId s.rules = some r →
      r.budgetLimit = B ∧ r.spent ≤ B) :
    ∀ r, alookup ruleId (executeAllocationStep s j now).1.rules = some r →
      r.budgetLimit = B ∧ r.spent ≤ B := by
  intro r2 hl2
  unfold executeAllocationStep at hl2
  split at hl2
  · exact hP r2 hl2
  · rename_i rule h0
    split at hl2
    · exact hP r2 hl2
    · split at hl2
      · exact hP r2 hl2
      · split at hl2
        · exact hP r2 hl2
        · rename_i amount hAmt
          split at hl2
          · exact hP r2 hl2
          · split at hl2
            · exact hP r2 hl2
            · dsimp only at hl2
              by_cases hj : j = ruleId
              · subst hj
                rw [alookup_aset_self, h0, Option.map_some'] at hl2
                injection hl2 with hr2
                subst hr2
                obtain ⟨hBL, hsp⟩ := hP rule h0
                refine ⟨hBL, ?_⟩
                have hne : rule.budgetLimit ≠ 0 := by omega
                have hcl : clampToBudget rule amount ≤ B - rule.spent := by
                  unfold clampToBudget
                  rw [if_neg hne, hBL]
                  exact Nat.min_le_right _ _
                show rule.spent + clampToBudget rule amount ≤ B
                omega
              · rw [alookup_aset_ne j ruleId _ s.rules
                  (fun hh => hj hh.symm)] at hl2
                exact hP r2 hl2

/-- Running any command sequence through the allocation engine preserves
the per-rule budget bound. -/
theorem executeAllocations_preserves_budget (B ruleId : Nat) (hB : 0 < B) :
    ∀ (cmds : List (Nat × Nat)) (s : AllocState),
      (∀ r, alookup ruleId s.rules = some r →
        r.budgetLimit = B ∧ r.spent ≤ B) →
      ∀ r, alookup ruleId (executeAllocations s cmds).1.rules = some r →
        r.budgetLimit = B ∧ r.spent ≤ B := by
  intro cmds
  induction cmds with
  | nil => intro s hP r hl; exact hP r hl
  | cons cmd rest ih =>
    intro s hP r hl
    exact ih (executeAllocationStep s cmd.1 cmd.2).1
      (executeAllocationStep_preserves_budget B ruleId cmd.1 cmd.2 hB s hP)
      r hl

/-- C2: for every allocation rule with `budgetLimit > 0`, after any
sequence of allocation executions the rule's cumulative `spent` never
exceeds `budgetLimit` (and the limit itself is not mutated); moreover,
when the clamped amount is zero the rule is skipped — the step returns
the state unchanged with executed = false rather than failing. -/
theorem allocation_budget_never_exceeded :
    (∀ (s : AllocState) (cmds : List (Nat × Nat)) (ruleId : Nat)
        (r r2 : AllocationRule),
        alookup ruleId s.rules = some r →
        0 < r.budgetLimit →
        r.spent ≤ r.budgetLimit →
        alookup ruleId (executeAllocations s cmds).1.rules = some r2 →
        r2.budgetLimit = r.budgetLimit ∧ r2.spent ≤ r.budgetLimit) ∧
    (∀ (s : AllocState) (ruleId now : Nat) (rule : AllocationRule)
        (amount : Nat),
        alookup ruleId s.rules = some rule →
        rule.active = true →
        rule.lastExecuted + rule.cooldown ≤ now →
        allocationAmount s.balance rule = some amount →
        clampToBudget rule amount = 0 →
        executeAllocationStep s ruleId now = (s, false)) := by
  constructor
  · intro s cmds ruleId r r2 hl hB hsp hl2
    exact executeAllocations_preserves_budget r.budgetLimit ruleId hB cmds s
      (fun r3 hl3 => by rw [hl] at hl3; cases hl3; exact ⟨rfl, hsp⟩) r2 hl2
  · intro s ruleId now rule amount hl hact hcd hAmt hcl
    simp [executeAllocationStep, hl, hact, Nat.not_lt.mpr hcd, hAmt, hcl]

/-- Witness for C2: a fixed-amount rule with value 60 and budget 100 run
three times spends 60 then 40 (clamped) then is skipped; the final spent
equals the budget and never exceeds it, and the exhausted-budget step is
a skip, not a failure. -/
theorem allocation_budget_never_exceeded_witness :
    (sampleAllocRuleFinal.budgetLimit = sampleAllocRule.budgetLimit ∧
     sampleAllocRuleFinal.spent ≤ sampleAllocRule.budgetLimit) ∧
    executeAllocationStep sampleAllocSpent 1 30 = (sampleAllocSpent, false) := by
  have h := allocation_budget_never_exceeded
  exact ⟨h.1 sampleAlloc [(1, 10), (1, 20), (1, 30)] 1 sampleAllocRule
      sampleAllocRuleFinal rfl (by decide) (by decide) rfl,
    h.2 sampleAllocSpent 1 30 sampleAllocRuleFinal 60 rfl rfl (by decide)
      rfl rfl⟩

end Arcboard
